import Mathlib

/-!
Verification of the bootstrap routine in `src/src-tauri/src/main.rs`.

The program is a Tauri application entry point:

  #![cfg_attr(not(debug_assertions), windows_subsystem = "windows")]
  fn main() {
      tauri::Builder::default()
          .plugin(tauri_plugin_devtools::init())
          .run(tauri::generate_context!())
          .expect("error while running tauri application");
  }

The external framework (tauri) is consumed, not implemented, by this
repository, so its API is embedded as trace-threaded functions: every
framework call appends an `Event` to a trace, and the result of the
blocking `run` call is supplied by an external environment `Env`, which
also carries the inputs the process could in principle observe
(command-line arguments, environment variables, persisted state).
`main` below mirrors the fluent call chain of the source line by line.
-/

namespace DailyNote

/-- A Tauri plugin value, identified by its crate name. -/
structure Plugin where
  name : String
deriving DecidableEq

namespace tauri_plugin_devtools

/-- The `tauri_plugin_devtools::init()` plugin initializer (external crate,
returns the devtools plugin value). -/
def init : Plugin := { name := "tauri-plugin-devtools" }

end tauri_plugin_devtools

/-- The build-time context descriptor type produced by the
`tauri::generate_context!` macro. -/
structure Context where
  descriptor : String
deriving DecidableEq

/-- The compile-time-generated context constant embedded in the binary by
`tauri::generate_context!()`.  It is a closed constant: it takes no
runtime argument at all. -/
def generate_context : Context := { descriptor := "daily-note" }

/-- The Tauri application builder: the only state it accumulates in this
program is the list of registered plugins. -/
structure Builder where
  plugins : List Plugin
deriving DecidableEq

/-- Observable framework events emitted by the bootstrap, in order. -/
inductive Event where
  | builderDefault
  | pluginAttached (p : Plugin)
  | runEntered (b : Builder) (ctx : Context)
deriving DecidableEq

/-- Whether an event is a plugin registration. -/
def Event.isPluginAttach : Event → Bool
  | Event.pluginAttached _ => true
  | _ => false

/-- Whether an event is an entry into the framework run loop. -/
def Event.isRunEnter : Event → Bool
  | Event.runEntered _ _ => true
  | _ => false

/-- The observable outcome of `main`: normal termination, or a panic
carrying the diagnostic message and the framework error. -/
inductive Outcome (E : Type) where
  | normal
  | panicked (msg : String) (err : E)
deriving DecidableEq

/-- The diagnostic message of a panicked outcome, if any. -/
def Outcome.panicMessage {E : Type} : Outcome E → Option String
  | Outcome.normal => none
  | Outcome.panicked msg _ => some msg

/-- The external environment of one execution: the process inputs that
exist around the program, and the framework's response when the run loop
is entered (`Result<(), tauri::Error>` in the source, with error type
`E`). -/
structure Env (E : Type) where
  args : List String
  envVars : String → Option String
  persisted : String → Option String
  runResult : Except E Unit

/-- Embedding of `tauri::Builder::default()`: a builder with no plugins,
logged as an event. -/
def Builder.default (t : List Event) : Builder × List Event :=
  ({ plugins := [] }, t ++ [Event.builderDefault])

/-- Embedding of `Builder::plugin`: appends the plugin to the builder,
logged as an event. -/
def Builder.plugin (self : Builder) (p : Plugin) (t : List Event) :
    Builder × List Event :=
  ({ plugins := self.plugins ++ [p] }, t ++ [Event.pluginAttached p])

/-- Embedding of `Builder::run`: enters the framework run loop with the
given context; the result is whatever the external framework answers in
this execution (`env.runResult`). -/
def Builder.run {E : Type} (self : Builder) (ctx : Context) (env : Env E)
    (t : List Event) : Except E Unit × List Event :=
  (env.runResult, t ++ [Event.runEntered self ctx])

/-- Embedding of `Result::expect(msg)`: normal on `Ok`, panic carrying the
fixed message and the error on `Err`. -/
def expect {E : Type} (r : Except E Unit) (msg : String) : Outcome E :=
  match r with
  | Except.ok _ => Outcome.normal
  | Except.error e => Outcome.panicked msg e

/-- Embedding of `fn main()`, mirroring the source call chain
`Builder::default().plugin(tauri_plugin_devtools::init()).run(tauri::generate_context!()).expect("error while running tauri application")`. -/
def main {E : Type} (env : Env E) : Outcome E × List Event :=
  let s1 := Builder.default []
  let s2 := Builder.plugin s1.1 tauri_plugin_devtools.init s1.2
  let s3 := Builder.run s2.1 generate_context env s2.2
  (expect s3.1 "error while running tauri application", s3.2)

/-- The builder value in effect when the run loop is entered. -/
def runBuilder : Builder := { plugins := [tauri_plugin_devtools.init] }

/-- The fixed sequence of bootstrap steps: construct the default builder,
attach the devtools plugin, enter the run loop. -/
def bootTrace : List Event :=
  [Event.builderDefault,
   Event.pluginAttached tauri_plugin_devtools.init,
   Event.runEntered runBuilder generate_context]

/-- Embedding of the crate attribute
`#![cfg_attr(not(debug_assertions), windows_subsystem = "windows")]`:
the subsystem attribute applied for a given value of `debug_assertions`
(`none` means the attribute is absent and the platform default applies). -/
def windows_subsystem (debugAssertions : Bool) : Option String :=
  if debugAssertions then none else some "windows"

/-- On Windows, a console window is suppressed exactly when the subsystem
attribute is set to "windows". -/
def suppressesConsoleWindow (debugAssertions : Bool) : Bool :=
  windows_subsystem debugAssertions = some "windows"

/-- Concrete environment: framework succeeds, no process inputs. -/
def envOkA : Env String :=
  { args := [], envVars := fun _ => none, persisted := fun _ => none,
    runResult := Except.ok () }

/-- Concrete environment: framework succeeds, but arguments, variables and
persisted state are all present and different from `envOkA`. -/
def envOkB : Env String :=
  { args := ["--verbose"], envVars := fun _ => some "1",
    persisted := fun _ => some "note", runResult := Except.ok () }

/-- Concrete environment: the framework run call fails with error "boom". -/
def envErr : Env String :=
  { args := [], envVars := fun _ => none, persisted := fun _ => none,
    runResult := Except.error "boom" }

/-- C1: if the framework run call returns an error, `main` aborts by
panicking with the fixed diagnostic message carrying that error, and its
trace is exactly the fixed three-step bootstrap trace: the run loop is
entered exactly once, with no retry, no recovery step, and no structured
error value returned to a caller. -/
theorem run_error_aborts_with_fixed_message {E : Type} (env : Env E) (e : E)
    (h : env.runResult = Except.error e) :
    (main env).1 = Outcome.panicked "error while running tauri application" e ∧
    (main env).2 = bootTrace := by
  constructor
  · simp [main, Builder.default, Builder.plugin, Builder.run, expect, h]
  · rfl

/-- Witness for C1 at the concrete failing environment `envErr`. -/
theorem run_error_aborts_with_fixed_message_witness :
    (main envErr).1 = Outcome.panicked "error while running tauri application" "boom" ∧
    (main envErr).2 = bootTrace :=
  run_error_aborts_with_fixed_message envErr "boom" rfl

/-- C2: in every execution the bootstrap performs exactly the three fixed
sequential steps — construct the default builder, attach the one devtools
plugin, enter the run loop — with no branching and no other operation:
the trace is one fixed list, independent of the environment. -/
theorem bootstrap_is_three_fixed_steps {E : Type} (env : Env E) :
    (main env).2 =
      [Event.builderDefault,
       Event.pluginAttached tauri_plugin_devtools.init,
       Event.runEntered { plugins := [tauri_plugin_devtools.init] }
         generate_context] := by
  rfl

/-- C3: `main` terminates normally if and only if the run call returns
`Ok`, and panics with the fixed diagnostic string exactly when the run
call returns the corresponding error. -/
theorem normal_exit_iff_run_ok {E : Type} (env : Env E) :
    ((main env).1 = Outcome.normal ↔ env.runResult = Except.ok ()) ∧
    (∀ e : E,
      (main env).1 = Outcome.panicked "error while running tauri application" e ↔
        env.runResult = Except.error e) := by
  cases h : env.runResult with
  | ok u =>
    cases u
    constructor
    · simp [main, Builder.default, Builder.plugin, Builder.run, expect, h]
    · intro e
      simp [main, Builder.default, Builder.plugin, Builder.run, expect, h]
  | error e₀ =>
    constructor
    · simp [main, Builder.default, Builder.plugin, Builder.run, expect, h]
    · intro e
      simp [main, Builder.default, Builder.plugin, Builder.run, expect, h]

/-- C4: `main` reads no command-line arguments, no environment variables
and no persisted state: its outcome and trace are identical across any
two environments that differ only in those inputs. -/
theorem main_ignores_process_inputs {E : Type}
    (a₁ a₂ : List String) (v₁ v₂ p₁ p₂ : String → Option String)
    (r : Except E Unit) :
    main { args := a₁, envVars := v₁, persisted := p₁, runResult := r } =
      main { args := a₂, envVars := v₂, persisted := p₂, runResult := r } := by
  rfl

/-- C5: exactly one plugin — the devtools initializer — is registered, the
registration strictly precedes entry to the run loop, and the builder that
enters the run loop carries exactly that plugin. -/
theorem one_devtools_plugin_registered_before_run {E : Type} (env : Env E) :
    ((main env).2.filter Event.isPluginAttach) =
      [Event.pluginAttached tauri_plugin_devtools.init] ∧
    ((main env).2.takeWhile (fun ev => !ev.isRunEnter)) =
      [Event.builderDefault,
       Event.pluginAttached tauri_plugin_devtools.init] ∧
    ((main env).2.filter Event.isRunEnter) =
      [Event.runEntered { plugins := [tauri_plugin_devtools.init] }
        generate_context] := by
  refine ⟨rfl, rfl, rfl⟩

/-- C6: every entry into the run loop in every execution consumes the
build-time constant `generate_context`, which is a closed constant and
hence not influenced by any runtime input. -/
theorem run_consumes_build_time_context {E : Type} (env : Env E) :
    ((main env).2.filter Event.isRunEnter) =
      [Event.runEntered runBuilder generate_context] := by
  rfl

/-- C7: in every execution the run loop is entered at most once, nothing
follows the run entry in the bootstrap trace, and the routine has exactly
one terminal state: normal (running until loop exit) or aborted with the
fixed message on failure. -/
theorem run_entered_once_then_terminal {E : Type} (env : Env E) :
    ((main env).2.filter Event.isRunEnter).length ≤ 1 ∧
    ((main env).2.dropWhile (fun ev => !ev.isRunEnter)) =
      [Event.runEntered runBuilder generate_context] ∧
    ((main env).1 = Outcome.normal ∨
      ∃ e : E,
        (main env).1 = Outcome.panicked "error while running tauri application" e) := by
  refine ⟨by rfl, rfl, ?_⟩
  cases h : env.runResult with
  | ok u =>
    left
    simp [main, Builder.default, Builder.plugin, Builder.run, expect, h]
  | error e =>
    right
    exact ⟨e, by simp [main, Builder.default, Builder.plugin, Builder.run, expect, h]⟩

/-- C8: on non-debug (release) builds the windows_subsystem attribute is
set to "windows", suppressing the console window; on debug builds the
attribute is absent and nothing changes. -/
theorem console_suppressed_only_in_release :
    suppressesConsoleWindow false = true ∧
    suppressesConsoleWindow true = false ∧
    windows_subsystem false = some "windows" ∧
    windows_subsystem true = none := by
  decide

/-- C9: the fixed diagnostic message produced on run-loop failure is
exactly the string "error while running tauri application". -/
theorem panic_message_is_exact_string {E : Type} (env : Env E) (e : E)
    (h : env.runResult = Except.error e) :
    Outcome.panicMessage (main env).1 =
      some "error while running tauri application" := by
  simp [main, Builder.default, Builder.plugin, Builder.run, expect, h,
    Outcome.panicMessage]

/-- Witness for C9 at the concrete failing environment `envErr`. -/
theorem panic_message_is_exact_string_witness :
    Outcome.panicMessage (main envErr).1 =
      some "error while running tauri application" :=
  panic_message_is_exact_string envErr "boom" rfl

/-- C10: `main` is deterministic with respect to the framework: two
executions in which the run call yields the same result have identical
observable outcome and trace. -/
theorem main_deterministic_in_run_result {E : Type} (env₁ env₂ : Env E)
    (h : env₁.runResult = env₂.runResult) :
    main env₁ = main env₂ := by
  simp [main, Builder.default, Builder.plugin, Builder.run, expect, h]

/-- Witness for C10: two environments differing in arguments, environment
variables and persisted state, with the same successful run result. -/
theorem main_deterministic_in_run_result_witness :
    main envOkA = main envOkB :=
  main_deterministic_in_run_result envOkA envOkB rfl

end DailyNote
